import Mathlib

/-!
Verification of the poker-league browser client (src/frontend/src/App.js).

The data model and state transitions below are shallow embeddings of the
client code: each React state update is modelled as a pure function on an
explicit state record, and each fetch handler is split into one function
per outcome (ok response, non-ok response, network error), mirroring the
branches of the source. The results editor and the elimination position
picker described by the specification are absent from the source tree;
they are modelled from the specification text and marked as such.
-/

/-- A seat assignment row of the polled game snapshot
(fields read by the client: user_id, user_name, user_avatar,
table_number, seat_number). -/
structure SeatAssignment where
  user_id : ℕ
  user_name : String
  user_avatar : String
  table_number : ℕ
  seat_number : ℕ
deriving DecidableEq

/-- A live elimination row (user_id, finish_position, points_earned),
from the specification data model. -/
structure LiveElimination where
  user_id : ℕ
  finish_position : ℕ
  points_earned : ℕ
deriving DecidableEq

/-- The polled game snapshot, with the fields the client reads. League
members are modelled by their ids. -/
structure GameStatus where
  league_name : String
  checked_in_players : ℕ
  tables_needed : ℕ
  total_members : ℕ
  seat_assignments : List SeatAssignment
  league_members : List ℕ
  game_started : Bool
deriving DecidableEq

/-- The GameInterface component state: gameStatus, loading and
checkedInUsers (a set of user ids). -/
structure GameViewState where
  gameStatus : Option GameStatus
  loading : Bool
  checkedInUsers : Finset ℕ
deriving DecidableEq

/-- fetchGameStatus, ok branch: setGameStatus(data), then
setCheckedInUsers becomes the set of user_id values of
data.seat_assignments, then setLoading(false). The previous state is
ignored entirely. -/
def fetchGameStatus_ok (_s : GameViewState) (data : GameStatus) : GameViewState :=
  { gameStatus := some data
    loading := false
    checkedInUsers := (data.seat_assignments.map SeatAssignment.user_id).toFinset }

/-- fetchGameStatus, non-ok response: the source has no else branch, so
nothing at all happens to the component state. -/
def fetchGameStatus_notOk (s : GameViewState) : GameViewState := s

/-- fetchGameStatus, catch branch: the error is logged and
setLoading(false) runs; gameStatus and checkedInUsers are untouched. -/
def fetchGameStatus_networkError (s : GameViewState) : GameViewState :=
  { s with loading := false }

/-- The two actions the checkin endpoint accepts. -/
inductive CheckinAction where
  | check_in : CheckinAction
  | check_out : CheckinAction
deriving DecidableEq

/-- What pressing the check-in toggle does: either an immediate server
call with an action, or opening the elimination position picker. -/
inductive ToggleEffect where
  | serverCall : CheckinAction → ToggleEffect
  | openPicker : ToggleEffect
deriving DecidableEq

/-- The check-in toggle of GameInterface: onClick always runs
handleCheckIn(isCheckedIn ? 'check_out' : 'check_in') where
isCheckedIn = checkedInUsers.has(user.id). It never consults
game_started and never opens any picker. -/
def checkInToggle (s : GameViewState) (userId : ℕ) : ToggleEffect :=
  ToggleEffect.serverCall
    (if userId ∈ s.checkedInUsers then CheckinAction.check_out else CheckinAction.check_in)

/-- handleCheckIn, catch branch: the error is only logged. -/
def handleCheckIn_networkError (s : GameViewState) : GameViewState := s

/-- startGame, catch branch: the error is only logged. -/
def startGame_networkError (s : GameViewState) : GameViewState := s

/-- resetGame, catch branch: the error is only logged. -/
def resetGame_networkError (s : GameViewState) : GameViewState := s

/-- The disabled condition of the Start Game button:
!gameStatus || gameStatus.checked_in_players < 2. -/
def startGameDisabled (gameStatus : Option GameStatus) : Bool :=
  match gameStatus with
  | none => true
  | some g => decide (g.checked_in_players < 2)

/-- renderPokerTable first filters the flat assignment list by table:
the rows whose table_number equals the rendered table. -/
def tableSeats (assignments : List SeatAssignment) (tableNumber : ℕ) : List SeatAssignment :=
  assignments.filter (fun a => a.table_number == tableNumber)

/-- For one canonical seat slot, renderPokerTable looks up the occupant
as the first row of tableSeats whose seat_number equals the slot number;
an absent occupant renders the empty-seat slot. -/
def seatOccupant (assignments : List SeatAssignment) (tableNumber seatNum : ℕ) :
    Option SeatAssignment :=
  (tableSeats assignments tableNumber).find? (fun s => s.seat_number == seatNum)

/-- renderPokerTable renders each table as the nine canonical seat slots
1 through 9, each slot holding its occupant or nothing. -/
def renderPokerTable (assignments : List SeatAssignment) (tableNumber : ℕ) :
    List (Option SeatAssignment) :=
  [1, 2, 3, 4, 5, 6, 7, 8, 9].map (fun seatNum => seatOccupant assignments tableNumber seatNum)

/-- The AuthProvider component state: user, token, plus the token copy
persisted in localStorage, and the loading flag. -/
structure AuthState where
  user : Option ℕ
  token : Option String
  storedToken : Option String
  loading : Bool
deriving DecidableEq

/-- logout: localStorage.removeItem('token'); setToken(null); setUser(null). -/
def logout (s : AuthState) : AuthState :=
  { s with storedToken := none, token := none, user := none }

/-- fetchCurrentUser, ok branch: setUser(userData), then setLoading(false). -/
def fetchCurrentUser_ok (s : AuthState) (userData : ℕ) : AuthState :=
  { s with user := some userData, loading := false }

/-- fetchCurrentUser, non-ok branch: logout(), then setLoading(false). -/
def fetchCurrentUser_notOk (s : AuthState) : AuthState :=
  { logout s with loading := false }

/-- fetchCurrentUser, catch branch: the error is logged, then logout()
and setLoading(false) run. -/
def fetchCurrentUser_networkError (s : AuthState) : AuthState :=
  { logout s with loading := false }

/-- login, ok branch: localStorage.setItem('token', data.access_token);
setToken(data.access_token); setUser(data.user). -/
def login_ok (s : AuthState) (access_token : String) (userId : ℕ) : AuthState :=
  { s with storedToken := some access_token, token := some access_token, user := some userId }

/-- login, catch branch: nothing is logged and no auth state update
runs; a failure result carrying the message Login failed is returned to
the caller. -/
def login_networkError (s : AuthState) : AuthState := s

/-- The generic message of the failure result login returns from its
catch branch. -/
def login_networkError_message : String := "Login failed"

/-- register, ok branch: same updates as a successful login. -/
def register_ok (s : AuthState) (access_token : String) (userId : ℕ) : AuthState :=
  { s with storedToken := some access_token, token := some access_token, user := some userId }

/-- register, catch branch: nothing is logged and no auth state update
runs; a failure result carrying the message Registration failed is
returned to the caller. -/
def register_networkError (s : AuthState) : AuthState := s

/-- The generic message of the failure result register returns from its
catch branch. -/
def register_networkError_message : String := "Registration failed"

/-- The AuthForm component state: the inline error banner text and the
submit loading flag, alongside the form fields. -/
structure AuthFormState where
  email : String
  password : String
  name : String
  error : String
  loading : Bool
deriving DecidableEq

/-- AuthForm handleSubmit after an unsuccessful login/register result:
setError(result.error), then setLoading(false); the form fields are
untouched. -/
def handleSubmit_failure (f : AuthFormState) (msg : String) : AuthFormState :=
  { f with error := msg, loading := false }

/-- The Dashboard component state (league lists modelled by ids). -/
structure DashboardState where
  myLeagues : List ℕ
  allLeagues : List ℕ
  loading : Bool
deriving DecidableEq

/-- handleJoinLeague, catch branch: the error is only logged. -/
def handleJoinLeague_networkError (d : DashboardState) : DashboardState := d

/-- fetchLeagues, catch branch: the error is logged; setLoading(false)
runs after the try/catch in every case. -/
def fetchLeagues_networkError (d : DashboardState) : DashboardState :=
  { d with loading := false }

/-- The CreateLeagueModal component state: the staged form data
(modelled by its name field) and the submit loading flag. -/
structure CreateLeagueModalState where
  formName : String
  loading : Bool
deriving DecidableEq

/-- CreateLeagueModal submit, catch branch: the error is logged;
setLoading(false) runs after the try/catch in every case and the form
data is untouched. -/
def createLeague_networkError (m : CreateLeagueModalState) : CreateLeagueModalState :=
  { m with loading := false }

/-- How an application-level rejection is shown to the user. -/
inductive ErrorSurface where
  | alertBox : String → ErrorSurface
  | inlineBanner : String → ErrorSurface
  | silent : ErrorSurface
deriving DecidableEq

/-- A detail string is surfaced verbatim when it appears in a blocking
alert or an inline banner. -/
def surfacesDetail (s : ErrorSurface) (detail : String) : Prop :=
  s = ErrorSurface.alertBox detail ∨ s = ErrorSurface.inlineBanner detail

/-- The AuthForm error banner: a non-empty error string renders in the
inline error-message element. -/
def authForm_surface (msg : String) : ErrorSurface := ErrorSurface.inlineBanner msg

/-- login, non-ok branch: the returned error.detail is rendered by the
AuthForm error banner. -/
def login_notOk_surface (detail : String) : ErrorSurface := ErrorSurface.inlineBanner detail

/-- register, non-ok branch: the returned error.detail is rendered by the
AuthForm error banner. -/
def register_notOk_surface (detail : String) : ErrorSurface := ErrorSurface.inlineBanner detail

/-- handleJoinLeague, non-ok branch: alert(error.detail). -/
def handleJoinLeague_notOk_surface (detail : String) : ErrorSurface := ErrorSurface.alertBox detail

/-- CreateLeagueModal submit, non-ok branch: alert(error.detail). -/
def createLeague_notOk_surface (detail : String) : ErrorSurface := ErrorSurface.alertBox detail

/-- handleCheckIn, non-ok branch: the source has no else branch, the
response body is never read and nothing is shown. -/
def handleCheckIn_notOk_surface (_detail : String) : ErrorSurface := ErrorSurface.silent

/-- startGame, non-ok branch: no else branch, nothing is shown. -/
def startGame_notOk_surface (_detail : String) : ErrorSurface := ErrorSurface.silent

/-- resetGame, non-ok branch: no else branch, nothing is shown. -/
def resetGame_notOk_surface (_detail : String) : ErrorSurface := ErrorSurface.silent

/-- fetchGameStatus, non-ok branch: no else branch, nothing is shown. -/
def fetchGameStatus_notOk_surface (_detail : String) : ErrorSurface := ErrorSurface.silent

/-- fetchCurrentUser, non-ok branch: logout() runs, nothing is shown. -/
def fetchCurrentUser_notOk_surface (_detail : String) : ErrorSurface := ErrorSurface.silent

/-- The value the auth context exposes: user, token, login, register,
logout, loading. The action fields hold the modelled success transitions
and the logout transition. -/
structure AuthContextValue where
  user : Option ℕ
  token : Option String
  login : AuthState → String → ℕ → AuthState
  register : AuthState → String → ℕ → AuthState
  logout : AuthState → AuthState
  loading : Bool

/-- The value AuthProvider passes to its context consumers. -/
def authProviderValue (s : AuthState) : AuthContextValue :=
  AuthContextValue.mk s.user s.token login_ok register_ok logout s.loading

/-- useAuth: if the surrounding context is absent it throws
Error('useAuth must be used within an AuthProvider'), otherwise it
returns the context value. -/
def useAuth (context : Option AuthContextValue) : Except String AuthContextValue :=
  match context with
  | none => Except.error "useAuth must be used within an AuthProvider"
  | some ctx => Except.ok ctx

/-- Modelled from the spec: the elimination position picker component is
absent from src. Per the specification it presents selectable finish
positions from 1..total_initial_players, excluding positions already
claimed by existing live_eliminations (set difference). -/
def eliminationPickerPositions (total_initial_players : ℕ)
    (live_eliminations : List LiveElimination) : List ℕ :=
  (List.range' 1 total_initial_players).filter
    (fun p => !(live_eliminations.any (fun e => e.finish_position == p)))

/-- A client-staged draft result row of the results editor, from the
specification data model: user_id, finish_position, points_earned,
buy_in_paid. -/
structure Result where
  user_id : ℕ
  finish_position : ℕ
  points_earned : ℕ
  buy_in_paid : Bool
deriving DecidableEq

/-- Modelled from the spec: the results editor is absent from src. Per
the specification it seeds a draft Result per league member, defaulting
finish_position to array index + 1. -/
def seedRow (p : ℕ × ℕ) : Result :=
  { user_id := p.2, finish_position := p.1 + 1, points_earned := 0, buy_in_paid := true }

/-- Modelled from the spec: the seeded draft, one Result per league
member with finish_position = array index + 1. -/
def seedResults (memberIds : List ℕ) : List Result :=
  memberIds.enum.map seedRow

/-- Modelled from the spec: the shift applied to every other row on a
single position change. Moving the edited row to a numerically smaller
position shifts the rows in [newPos, oldPos) down the list (position + 1);
moving it to a larger one shifts the rows in (oldPos, newPos] up
(position - 1); all other rows keep their position. -/
def shiftOther (oldPos newPos p : ℕ) : ℕ :=
  if newPos < oldPos then
    if newPos ≤ p ∧ p < oldPos then p + 1 else p
  else if oldPos < newPos then
    if oldPos < p ∧ p ≤ newPos then p - 1 else p
  else p

/-- Modelled from the spec: the per-row update of a single position
change. The edited row (matched by user id) receives the new position;
every other row is shifted by shiftOther. -/
def editRow (uid newPos oldPos : ℕ) (r : Result) : Result :=
  if r.user_id = uid then { r with finish_position := newPos }
  else { r with finish_position := shiftOther oldPos newPos r.finish_position }

instance : DecidableRel (fun a b : Result => a.finish_position ≤ b.finish_position) :=
  fun a b => Nat.decLe a.finish_position b.finish_position

/-- Modelled from the spec: apply the per-row update for a known old
position, then stably re-sort by finish_position. -/
def reassignWith (rows : List Result) (uid newPos oldPos : ℕ) : List Result :=
  List.insertionSort (fun a b => a.finish_position ≤ b.finish_position)
    (rows.map (editRow uid newPos oldPos))

/-- Modelled from the spec: a single position change in the results
editor. The old position is read off the edited row; if no row matches
the user id the draft is unchanged. -/
def reassign (rows : List Result) (uid newPos : ℕ) : List Result :=
  match rows.find? (fun r => r.user_id == uid) with
  | none => rows
  | some edited => reassignWith rows uid newPos edited.finish_position

/-- Modelled from the spec: a sequence of single-position edits, applied
left to right; each edit names a user id and a new position. -/
def applyEdits (rows : List Result) : List (ℕ × ℕ) → List Result
  | [] => rows
  | e :: t => applyEdits (reassign rows e.1 e.2) t

theorem editRow_user_id (uid newPos oldPos : ℕ) (r : Result) :
    (editRow uid newPos oldPos r).user_id = r.user_id := by
  unfold editRow
  split <;> rfl

theorem mem_map_shiftOther_erase {N o n x : ℕ} (ho : o ∈ List.range' 1 N)
    (hn : n ∈ List.range' 1 N) :
    x ∈ ((List.range' 1 N).erase o).map (shiftOther o n) ↔
      x ≠ n ∧ x ∈ List.range' 1 N := by
  have hor := List.mem_range'_1.mp ho
  have hnr := List.mem_range'_1.mp hn
  constructor
  · intro hx
    rcases List.mem_map.mp hx with ⟨p, hp, rfl⟩
    rcases (List.nodup_range' 1 N).mem_erase_iff.mp hp with ⟨hpo, hpmem⟩
    have hpr := List.mem_range'_1.mp hpmem
    have hgoal : shiftOther o n p ≠ n ∧ 1 ≤ shiftOther o n p ∧ shiftOther o n p < 1 + N := by
      unfold shiftOther
      split_ifs <;> omega
    exact ⟨hgoal.1, List.mem_range'_1.mpr hgoal.2⟩
  · rintro ⟨hxn, hxmem⟩
    have hxr := List.mem_range'_1.mp hxmem
    refine List.mem_map.mpr ?_
    by_cases h1 : n < o
    · by_cases h2 : n + 1 ≤ x ∧ x ≤ o
      · refine ⟨x - 1, (List.nodup_range' 1 N).mem_erase_iff.mpr
          ⟨by omega, List.mem_range'_1.mpr (by omega)⟩, ?_⟩
        unfold shiftOther
        split_ifs <;> omega
      · refine ⟨x, (List.nodup_range' 1 N).mem_erase_iff.mpr ⟨by omega, hxmem⟩, ?_⟩
        unfold shiftOther
        split_ifs <;> omega
    · by_cases h1' : o < n
      · by_cases h2 : o ≤ x ∧ x + 1 ≤ n
        · refine ⟨x + 1, (List.nodup_range' 1 N).mem_erase_iff.mpr
            ⟨by omega, List.mem_range'_1.mpr (by omega)⟩, ?_⟩
          unfold shiftOther
          split_ifs <;> omega
        · refine ⟨x, (List.nodup_range' 1 N).mem_erase_iff.mpr ⟨by omega, hxmem⟩, ?_⟩
          unfold shiftOther
          split_ifs <;> omega
      · refine ⟨x, (List.nodup_range' 1 N).mem_erase_iff.mpr ⟨by omega, hxmem⟩, ?_⟩
        unfold shiftOther
        split_ifs <;> omega

theorem nodup_map_shiftOther_erase (N o n : ℕ) :
    (((List.range' 1 N).erase o).map (shiftOther o n)).Nodup := by
  apply List.Nodup.map_on ?_ ((List.nodup_range' 1 N).erase o)
  intro p hp q hq hpq
  rcases (List.nodup_range' 1 N).mem_erase_iff.mp hp with ⟨hpo, hpmem⟩
  rcases (List.nodup_range' 1 N).mem_erase_iff.mp hq with ⟨hqo, hqmem⟩
  have hpr := List.mem_range'_1.mp hpmem
  have hqr := List.mem_range'_1.mp hqmem
  unfold shiftOther at hpq
  split_ifs at hpq <;> omega

theorem shift_erase_perm {N o n : ℕ} (ho : o ∈ List.range' 1 N)
    (hn : n ∈ List.range' 1 N) :
    (n :: ((List.range' 1 N).erase o).map (shiftOther o n)).Perm (List.range' 1 N) := by
  have h1 : (List.range' 1 N).Perm (n :: (List.range' 1 N).erase n) := List.perm_cons_erase hn
  have h2 : (((List.range' 1 N).erase o).map (shiftOther o n)).Perm
      ((List.range' 1 N).erase n) := by
    rw [List.perm_ext_iff_of_nodup (nodup_map_shiftOther_erase N o n)
      ((List.nodup_range' 1 N).erase n)]
    intro x
    rw [mem_map_shiftOther_erase ho hn, (List.nodup_range' 1 N).mem_erase_iff]
  exact (h2.cons n).trans h1.symm

theorem reassignWith_map_user_id (rows : List Result) (uid newPos oldPos : ℕ) :
    ((reassignWith rows uid newPos oldPos).map Result.user_id).Perm
      (rows.map Result.user_id) := by
  unfold reassignWith
  have h1 := (List.perm_insertionSort (fun a b : Result => a.finish_position ≤ b.finish_position)
    (rows.map (editRow uid newPos oldPos))).map Result.user_id
  refine h1.trans ?_
  rw [List.map_map]
  have h2 : rows.map (Result.user_id ∘ editRow uid newPos oldPos) = rows.map Result.user_id :=
    List.map_congr_left (fun r _ => editRow_user_id uid newPos oldPos r)
  rw [h2]

theorem reassignWith_map_pos {N : ℕ} (rows : List Result) (uid newPos : ℕ) (edited : Result)
    (hmem : edited ∈ rows) (heduid : edited.user_id = uid)
    (hid : (rows.map Result.user_id).Nodup)
    (hp : (rows.map Result.finish_position).Perm (List.range' 1 N))
    (hn : newPos ∈ List.range' 1 N) :
    ((reassignWith rows uid newPos edited.finish_position).map Result.finish_position).Perm
      (List.range' 1 N) := by
  have hrnd : rows.Nodup := hid.of_map _
  have hinj := List.inj_on_of_nodup_map hid
  have ho : edited.finish_position ∈ List.range' 1 N :=
    hp.mem_iff.mp (List.mem_map.mpr ⟨edited, hmem, rfl⟩)
  have hperm1 : rows.Perm (edited :: rows.erase edited) := List.perm_cons_erase hmem
  unfold reassignWith
  have hsortp := (List.perm_insertionSort
    (fun a b : Result => a.finish_position ≤ b.finish_position)
    (rows.map (editRow uid newPos edited.finish_position))).map Result.finish_position
  refine hsortp.trans ?_
  rw [List.map_map]
  refine (hperm1.map (Result.finish_position ∘ editRow uid newPos edited.finish_position)).trans ?_
  simp only [List.map_cons]
  have hged : (Result.finish_position ∘ editRow uid newPos edited.finish_position) edited
      = newPos := by
    simp [editRow, heduid]
  rw [hged]
  have herase_map : (rows.erase edited).map
        (Result.finish_position ∘ editRow uid newPos edited.finish_position)
      = ((rows.erase edited).map Result.finish_position).map
        (shiftOther edited.finish_position newPos) := by
    rw [List.map_map]
    apply List.map_congr_left
    intro r hr
    rcases hrnd.mem_erase_iff.mp hr with ⟨hne, hrmem⟩
    have hruid : ¬ r.user_id = uid := fun h =>
      hne (hinj hrmem hmem (h.trans heduid.symm))
    simp [editRow, Function.comp, hruid]
  rw [herase_map]
  have h3 : (edited.finish_position :: (rows.erase edited).map Result.finish_position).Perm
      (List.range' 1 N) := by
    have h := hperm1.map Result.finish_position
    simp only [List.map_cons] at h
    exact h.symm.trans hp
  have h4 : ((rows.erase edited).map Result.finish_position).Perm
      ((List.range' 1 N).erase edited.finish_position) := by
    have h5 : (List.range' 1 N).Perm
        (edited.finish_position :: (List.range' 1 N).erase edited.finish_position) :=
      List.perm_cons_erase ho
    exact (h3.trans h5).cons_inv
  have h6 := (h4.map (shiftOther edited.finish_position newPos)).cons newPos
  exact h6.trans (shift_erase_perm ho hn)

theorem reassign_map_user_id (rows : List Result) (uid newPos : ℕ) :
    ((reassign rows uid newPos).map Result.user_id).Perm (rows.map Result.user_id) := by
  rcases hfind : rows.find? (fun r => r.user_id == uid) with _ | edited
  · simp [reassign, hfind]
  · simp only [reassign, hfind]
    exact reassignWith_map_user_id rows uid newPos edited.finish_position

theorem reassign_map_pos {N : ℕ} (rows : List Result) (uid newPos : ℕ)
    (hid : (rows.map Result.user_id).Nodup)
    (hp : (rows.map Result.finish_position).Perm (List.range' 1 N))
    (hn : newPos ∈ List.range' 1 N) :
    ((reassign rows uid newPos).map Result.finish_position).Perm (List.range' 1 N) := by
  rcases hfind : rows.find? (fun r => r.user_id == uid) with _ | edited
  · simpa [reassign, hfind] using hp
  · simp only [reassign, hfind]
    have hmem : edited ∈ rows := List.mem_of_find?_eq_some hfind
    have heduid : edited.user_id = uid := by
      have h := List.find?_some hfind
      simpa using h
    exact reassignWith_map_pos rows uid newPos edited hmem heduid hid hp hn

theorem applyEdits_map_pos {N : ℕ} (edits : List (ℕ × ℕ)) (rows : List Result)
    (hid : (rows.map Result.user_id).Nodup)
    (hp : (rows.map Result.finish_position).Perm (List.range' 1 N))
    (hvalid : ∀ e ∈ edits, e.2 ∈ List.range' 1 N) :
    ((applyEdits rows edits).map Result.finish_position).Perm (List.range' 1 N) := by
  induction edits generalizing rows with
  | nil => simpa [applyEdits] using hp
  | cons e t ih =>
    simp only [applyEdits]
    refine ih (reassign rows e.1 e.2) ?_ ?_ ?_
    · exact ((reassign_map_user_id rows e.1 e.2).nodup_iff).mpr hid
    · exact reassign_map_pos rows e.1 e.2 hid hp (hvalid e (List.mem_cons_self e t))
    · exact fun x hx => hvalid x (List.mem_cons_of_mem e hx)

theorem seed_pos_aux (m : List ℕ) : ∀ k : ℕ,
    ((List.enumFrom k m).map seedRow).map Result.finish_position
      = List.range' (k + 1) m.length := by
  induction m with
  | nil => intro k; rfl
  | cons a t ih =>
    intro k
    simp only [List.enumFrom, List.map_cons, List.length_cons]
    rw [List.range'_succ]
    simp [seedRow, ih (k + 1)]

theorem seed_uid_aux (m : List ℕ) : ∀ k : ℕ,
    ((List.enumFrom k m).map seedRow).map Result.user_id = m := by
  induction m with
  | nil => intro k; rfl
  | cons a t ih =>
    intro k
    simp only [List.enumFrom, List.map_cons]
    simp [seedRow, ih (k + 1)]

theorem seedResults_map_pos (m : List ℕ) :
    (seedResults m).map Result.finish_position = List.range' 1 m.length := by
  have h := seed_pos_aux m 0
  simpa [seedResults, List.enum] using h

theorem seedResults_map_user_id (m : List ℕ) :
    (seedResults m).map Result.user_id = m := by
  have h := seed_uid_aux m 0
  simpa [seedResults, List.enum] using h

theorem find?_filter_eq {α : Type} (l : List α) (p q : α → Bool) :
    (l.filter p).find? q = l.find? (fun a => p a && q a) := by
  induction l with
  | nil => rfl
  | cons a t ih =>
    by_cases hp : p a
    · by_cases hq : q a
      · simp [List.filter_cons, hp, hq]
      · simp [List.filter_cons, hp, hq, ih]
    · simp [List.filter_cons, hp, ih]

/-- Claim C1 (counterexample): in a state whose snapshot has the game
started and whose user 1 is checked in, pressing the toggle issues the
check_out server call directly; it does not open a position picker. This
contradicts the claim as stated. -/
theorem claim_C1_counterexample :
    (GameStatus.mk "L" 1 1 3 [SeatAssignment.mk 1 "A" "a" 1 1] [1] true).game_started = true ∧
    (1 : ℕ) ∈ (GameViewState.mk
      (some (GameStatus.mk "L" 1 1 3 [SeatAssignment.mk 1 "A" "a" 1 1] [1] true))
      false {1}).checkedInUsers ∧
    checkInToggle (GameViewState.mk
      (some (GameStatus.mk "L" 1 1 3 [SeatAssignment.mk 1 "A" "a" 1 1] [1] true))
      false {1}) 1 = ToggleEffect.serverCall CheckinAction.check_out ∧
    checkInToggle (GameViewState.mk
      (some (GameStatus.mk "L" 1 1 3 [SeatAssignment.mk 1 "A" "a" 1 1] [1] true))
      false {1}) 1 ≠ ToggleEffect.openPicker := by
  refine ⟨rfl, by decide, by decide, by decide⟩

/-- Claim C1 (amended): pressing the check-in toggle always issues the
check_in (when not checked in) or check_out (when checked in) server call
directly, regardless of whether the game is started; no
elimination-position picker is ever opened. -/
theorem claim_C1_amended (s : GameViewState) (userId : ℕ) :
    checkInToggle s userId ≠ ToggleEffect.openPicker ∧
    (userId ∈ s.checkedInUsers →
      checkInToggle s userId = ToggleEffect.serverCall CheckinAction.check_out) ∧
    (userId ∉ s.checkedInUsers →
      checkInToggle s userId = ToggleEffect.serverCall CheckinAction.check_in) := by
  by_cases h : userId ∈ s.checkedInUsers <;> simp [checkInToggle, h]

/-- Claim C1 (witness for the amended theorem at a concrete state). -/
theorem claim_C1_amended_witness :
    (1 : ℕ) ∈ (GameViewState.mk none true {1}).checkedInUsers ∧
    checkInToggle (GameViewState.mk none true {1}) 1
      = ToggleEffect.serverCall CheckinAction.check_out :=
  ⟨by decide, (claim_C1_amended (GameViewState.mk none true {1}) 1).2.1 (by decide)⟩

/-- Claim C2: starting from the seeded draft (finish_position = array
index + 1 for each of the N distinct league members), after any sequence
of single-position edits whose chosen positions lie in 1..N, the
positions of the draft rows are exactly a permutation of 1..N, with no
duplicates and no gaps. -/
theorem claim_C2_results_editor_permutation (memberIds : List ℕ) (edits : List (ℕ × ℕ))
    (hm : memberIds.Nodup)
    (hvalid : ∀ e ∈ edits, 1 ≤ e.2 ∧ e.2 ≤ memberIds.length) :
    ((applyEdits (seedResults memberIds) edits).map Result.finish_position).Perm
      (List.range' 1 memberIds.length) := by
  apply applyEdits_map_pos
  · rw [seedResults_map_user_id]
    exact hm
  · rw [seedResults_map_pos]
  · intro e he
    exact List.mem_range'_1.mpr ⟨(hvalid e he).1, by have := (hvalid e he).2; omega⟩

/-- Claim C2 (witness): three members, one edit moving member 10 from
position 1 to position 2; the resulting positions are a permutation of
1..3. -/
theorem claim_C2_witness :
    ([10, 20, 30] : List ℕ).Nodup ∧
    (∀ e ∈ ([(10, 2)] : List (ℕ × ℕ)), 1 ≤ e.2 ∧ e.2 ≤ ([10, 20, 30] : List ℕ).length) ∧
    ((applyEdits (seedResults [10, 20, 30]) [(10, 2)]).map Result.finish_position).Perm
      (List.range' 1 ([10, 20, 30] : List ℕ).length) :=
  ⟨by decide, by decide,
    claim_C2_results_editor_permutation [10, 20, 30] [(10, 2)] (by decide) (by decide)⟩

/-- Claim C3: the set of positions offered by the elimination position
picker equals 1..total_initial_players minus the finish positions
present in live_eliminations; in particular the picker never offers a
position already present in live_eliminations. -/
theorem claim_C3_picker_positions (total_initial_players : ℕ)
    (live_eliminations : List LiveElimination) :
    (eliminationPickerPositions total_initial_players live_eliminations).toFinset
        = Finset.Icc 1 total_initial_players \
          (live_eliminations.map LiveElimination.finish_position).toFinset ∧
    ∀ e ∈ live_eliminations,
      e.finish_position ∉ eliminationPickerPositions total_initial_players live_eliminations := by
  constructor
  · ext x
    simp only [List.mem_toFinset, eliminationPickerPositions, List.mem_filter,
      List.mem_range'_1, Finset.mem_sdiff, Finset.mem_Icc, List.mem_map,
      Bool.not_eq_true', List.any_eq_false, beq_iff_eq, not_exists, not_and]
    constructor
    · rintro ⟨⟨h1, h2⟩, h3⟩
      exact ⟨⟨h1, by omega⟩, fun e he hex => h3 e he hex⟩
    · rintro ⟨⟨h1, h2⟩, h3⟩
      exact ⟨⟨h1, by omega⟩, fun e he hex => h3 e he hex⟩
  · intro e he hmem
    have h := (List.mem_filter.mp hmem).2
    simp only [Bool.not_eq_true', List.any_eq_false, beq_iff_eq] at h
    exact h e he rfl

/-- Claim C3 (witness): with 3 initial players and an elimination at
position 2, the picker offers exactly positions 1 and 3 and does not
offer position 2. -/
theorem claim_C3_witness :
    (eliminationPickerPositions 3 [LiveElimination.mk 7 2 10]).toFinset
        = Finset.Icc 1 3 \
          (([LiveElimination.mk 7 2 10]).map LiveElimination.finish_position).toFinset ∧
    (LiveElimination.mk 7 2 10).finish_position
      ∉ eliminationPickerPositions 3 [LiveElimination.mk 7 2 10] :=
  ⟨(claim_C3_picker_positions 3 [LiveElimination.mk 7 2 10]).1,
    (claim_C3_picker_positions 3 [LiveElimination.mk 7 2 10]).2
      (LiveElimination.mk 7 2 10) (by decide)⟩

/-- Claim C4: the derived table layout maps each (table, seat) pair to at
most one occupant: each table renders exactly 9 canonical slots, a slot
shows the first assignment in the list matching its table and seat
number, and a slot with no matching assignment is empty. -/
theorem claim_C4_table_layout (assignments : List SeatAssignment) (tableNumber : ℕ) :
    (renderPokerTable assignments tableNumber).length = 9 ∧
    (∀ seatNum : ℕ, seatOccupant assignments tableNumber seatNum
        = assignments.find? (fun a => a.table_number == tableNumber && a.seat_number == seatNum)) ∧
    (∀ seatNum : ℕ, (seatOccupant assignments tableNumber seatNum = none ↔
        ∀ a ∈ assignments, ¬(a.table_number = tableNumber ∧ a.seat_number = seatNum))) ∧
    (∀ seatNum : ℕ, ∀ occ : SeatAssignment,
      seatOccupant assignments tableNumber seatNum = some occ →
        occ ∈ assignments ∧ occ.table_number = tableNumber ∧ occ.seat_number = seatNum) := by
  refine ⟨rfl, ?_, ?_, ?_⟩
  · intro seatNum
    exact find?_filter_eq assignments _ _
  · intro seatNum
    unfold seatOccupant tableSeats
    rw [find?_filter_eq assignments _ _]
    rw [List.find?_eq_none]
    constructor
    · intro h a ha hcontra
      have := h a ha
      simp only [Bool.and_eq_true, beq_iff_eq] at this
      exact this ⟨hcontra.1, hcontra.2⟩
    · intro h a ha
      simp only [Bool.and_eq_true, beq_iff_eq]
      exact fun hcontra => h a ha hcontra
  · intro seatNum occ hocc
    unfold seatOccupant tableSeats at hocc
    rw [find?_filter_eq assignments _ _] at hocc
    have hmem := List.mem_of_find?_eq_some hocc
    have hpred := List.find?_some hocc
    simp only [Bool.and_eq_true, beq_iff_eq] at hpred
    exact ⟨hmem, hpred.1, hpred.2⟩

/-- Claim C4 (witness): with two assignments at table 1 seat 3, the slot
shows the first of them; length and occupancy facts at a concrete
layout. -/
theorem claim_C4_witness :
    (renderPokerTable
      [SeatAssignment.mk 1 "Alice" "a" 1 3, SeatAssignment.mk 2 "Bob" "b" 1 3] 1).length = 9 ∧
    (SeatAssignment.mk 1 "Alice" "a" 1 3
        ∈ [SeatAssignment.mk 1 "Alice" "a" 1 3, SeatAssignment.mk 2 "Bob" "b" 1 3] ∧
      (SeatAssignment.mk 1 "Alice" "a" 1 3).table_number = 1 ∧
      (SeatAssignment.mk 1 "Alice" "a" 1 3).seat_number = 3) :=
  ⟨(claim_C4_table_layout
      [SeatAssignment.mk 1 "Alice" "a" 1 3, SeatAssignment.mk 2 "Bob" "b" 1 3] 1).1,
    (claim_C4_table_layout
      [SeatAssignment.mk 1 "Alice" "a" 1 3, SeatAssignment.mk 2 "Bob" "b" 1 3] 1).2.2.2
      3 (SeatAssignment.mk 1 "Alice" "a" 1 3) (by decide)⟩

/-- Claim C5: a successful status poll replaces the component state
wholesale (the result does not depend on the previous state), sets the
snapshot as the new gameStatus, and recomputes checkedInUsers as exactly
the set of user_id values of the snapshot seat_assignments. -/
theorem claim_C5_poll_replaces_state (s1 s2 : GameViewState) (data : GameStatus) :
    fetchGameStatus_ok s1 data = fetchGameStatus_ok s2 data ∧
    (fetchGameStatus_ok s1 data).gameStatus = some data ∧
    (fetchGameStatus_ok s1 data).loading = false ∧
    (fetchGameStatus_ok s1 data).checkedInUsers
      = (data.seat_assignments.map SeatAssignment.user_id).toFinset ∧
    (∀ u : ℕ, u ∈ (fetchGameStatus_ok s1 data).checkedInUsers ↔
      u ∈ data.seat_assignments.map SeatAssignment.user_id) :=
  ⟨rfl, rfl, rfl, rfl, fun _ => List.mem_toFinset⟩

/-- Claim C6 (counterexample): a poll that returns a non-ok response does
not clear the loading flag (and logs nothing), contradicting the claim
that every failed poll clears the loading flag. -/
theorem claim_C6_counterexample :
    ¬((fetchGameStatus_notOk (GameViewState.mk none true ∅)).loading = false) := by
  decide

/-- Claim C6 (amended): a status poll failing with a network error is
swallowed: the loading flag is cleared and gameStatus and checkedInUsers
are unchanged; a poll returning a non-ok response leaves the whole state,
including the loading flag, unchanged. In both cases the previous game
state persists until the next successful poll. -/
theorem claim_C6_amended (s : GameViewState) :
    (fetchGameStatus_networkError s).loading = false ∧
    (fetchGameStatus_networkError s).gameStatus = s.gameStatus ∧
    (fetchGameStatus_networkError s).checkedInUsers = s.checkedInUsers ∧
    fetchGameStatus_notOk s = s :=
  ⟨rfl, rfl, rfl, rfl⟩

/-- Claim C7 (counterexample): a network failure of the current-user
fetch clears the stored token (and the token and user), contradicting the
claim that a transport failure never clears them. -/
theorem claim_C7_counterexample :
    ¬((fetchCurrentUser_networkError
        (AuthState.mk (some 1) (some "tok") (some "tok") false)).storedToken
      = (AuthState.mk (some 1) (some "tok") (some "tok") false).storedToken) := by
  simp [fetchCurrentUser_networkError, logout]

/-- Claim C7 (amended): a network/transport failure never changes the
session state (stored token, token, current user) except on the
current-user fetch, where it forces a logout clearing all three and
ending the loading state. Per request: the check-in, start-game,
reset-game and join-league failures are only logged and leave state
unchanged; the status-poll, league-list and create-league failures are
logged and clear only their loading flag; the login and register
failures are not logged — they leave the auth state unchanged and
return a generic Login failed / Registration failed message that the
form surfaces as an inline banner while clearing the form loading
flag. -/
theorem claim_C7_amended (a : AuthState) (g : GameViewState) (d : DashboardState)
    (m : CreateLeagueModalState) (f : AuthFormState) :
    handleCheckIn_networkError g = g ∧
    startGame_networkError g = g ∧
    resetGame_networkError g = g ∧
    handleJoinLeague_networkError d = d ∧
    fetchGameStatus_networkError g = { g with loading := false } ∧
    fetchLeagues_networkError d = { d with loading := false } ∧
    createLeague_networkError m = { m with loading := false } ∧
    login_networkError a = a ∧
    register_networkError a = a ∧
    handleSubmit_failure f login_networkError_message
      = { f with error := "Login failed", loading := false } ∧
    handleSubmit_failure f register_networkError_message
      = { f with error := "Registration failed", loading := false } ∧
    surfacesDetail (authForm_surface login_networkError_message) "Login failed" ∧
    surfacesDetail (authForm_surface register_networkError_message) "Registration failed" ∧
    (fetchCurrentUser_networkError a).user = none ∧
    (fetchCurrentUser_networkError a).token = none ∧
    (fetchCurrentUser_networkError a).storedToken = none ∧
    (fetchCurrentUser_networkError a).loading = false :=
  ⟨rfl, rfl, rfl, rfl, rfl, rfl, rfl, rfl, rfl, rfl, rfl,
    Or.inr rfl, Or.inr rfl, rfl, rfl, rfl, rfl⟩

/-- Claim C8 (counterexample): a non-2xx response to the check-in call is
swallowed without surfacing the detail message, contradicting the claim
that every authenticated call surfaces detail verbatim. -/
theorem claim_C8_counterexample :
    ¬surfacesDetail (handleCheckIn_notOk_surface "Game already started")
      "Game already started" := by
  simp [surfacesDetail, handleCheckIn_notOk_surface]

/-- Claim C8 (amended): the login, register, join-league and
create-league calls surface the detail of a non-2xx response verbatim
(inline banner or blocking alert); the check-in, start-game, reset-game,
status-poll and current-user calls swallow non-2xx responses without
surfacing the detail. -/
theorem claim_C8_amended (detail : String) :
    surfacesDetail (login_notOk_surface detail) detail ∧
    surfacesDetail (register_notOk_surface detail) detail ∧
    surfacesDetail (handleJoinLeague_notOk_surface detail) detail ∧
    surfacesDetail (createLeague_notOk_surface detail) detail ∧
    ¬surfacesDetail (handleCheckIn_notOk_surface detail) detail ∧
    ¬surfacesDetail (startGame_notOk_surface detail) detail ∧
    ¬surfacesDetail (resetGame_notOk_surface detail) detail ∧
    ¬surfacesDetail (fetchGameStatus_notOk_surface detail) detail ∧
    ¬surfacesDetail (fetchCurrentUser_notOk_surface detail) detail := by
  refine ⟨Or.inr rfl, Or.inr rfl, Or.inl rfl, Or.inl rfl, ?_, ?_, ?_, ?_, ?_⟩ <;>
    simp [surfacesDetail, handleCheckIn_notOk_surface, startGame_notOk_surface,
      resetGame_notOk_surface, fetchGameStatus_notOk_surface, fetchCurrentUser_notOk_surface]

/-- Claim C9: the Start Game control is disabled exactly when the game
status is absent or checked_in_players is below 2, so whenever the start
action can fire the snapshot is present with checked_in_players at least
2 and the client never issues the start-game request otherwise. -/
theorem claim_C9_start_game_guard (gs : Option GameStatus) :
    (startGameDisabled gs = true ↔
      gs = none ∨ ∃ g, gs = some g ∧ g.checked_in_players < 2) ∧
    (startGameDisabled gs = false → ∃ g, gs = some g ∧ 2 ≤ g.checked_in_players) := by
  cases gs with
  | none => simp [startGameDisabled]
  | some g =>
    by_cases h : g.checked_in_players < 2 <;>
      simp [startGameDisabled, h] <;> omega

/-- Claim C9 (witness): with 3 players checked in the button is enabled
and the guaranteed bound holds. -/
theorem claim_C9_witness :
    startGameDisabled (some (GameStatus.mk "L" 3 1 5 [] [] false)) = false ∧
    ∃ g, (some (GameStatus.mk "L" 3 1 5 [] [] false) : Option GameStatus) = some g ∧
      2 ≤ g.checked_in_players :=
  ⟨by decide,
    (claim_C9_start_game_guard (some (GameStatus.mk "L" 3 1 5 [] [] false))).2 (by decide)⟩

/-- Claim C10: useAuth outside an AuthProvider always throws the Error
with message 'useAuth must be used within an AuthProvider'; inside a
provider it never throws and returns the session context value (user,
token, login, register, logout, loading) as provided. -/
theorem claim_C10_useAuth (v : AuthContextValue) (s : AuthState) :
    useAuth none = Except.error "useAuth must be used within an AuthProvider" ∧
    useAuth (some v) = Except.ok v ∧
    (authProviderValue s).user = s.user ∧
    (authProviderValue s).token = s.token ∧
    (authProviderValue s).loading = s.loading :=
  ⟨rfl, rfl, rfl, rfl, rfl⟩

/-- Claim C5 (witness): a concrete successful poll recomputes the
checked-in set from the snapshot. -/
theorem claim_C5_witness :
    (fetchGameStatus_ok (GameViewState.mk none true ∅)
        (GameStatus.mk "L" 1 1 2 [SeatAssignment.mk 4 "A" "a" 1 1] [4] false)).checkedInUsers
      = ([4] : List ℕ).toFinset :=
  (claim_C5_poll_replaces_state (GameViewState.mk none true ∅) (GameViewState.mk none false ∅)
    (GameStatus.mk "L" 1 1 2 [SeatAssignment.mk 4 "A" "a" 1 1] [4] false)).2.2.2.1

/-- Claim C6 (witness for the amended theorem at a concrete state). -/
theorem claim_C6_amended_witness :
    (fetchGameStatus_networkError (GameViewState.mk none true ∅)).loading = false :=
  (claim_C6_amended (GameViewState.mk none true ∅)).1

/-- Claim C7 (witness for the amended theorem at a concrete state). -/
theorem claim_C7_amended_witness :
    (fetchCurrentUser_networkError (AuthState.mk (some 1) (some "t") (some "t") true)).token
      = none := by
  obtain ⟨-, -, -, -, -, -, -, -, -, -, -, -, -, -, h15, -, -⟩ :=
    claim_C7_amended (AuthState.mk (some 1) (some "t") (some "t") true)
      (GameViewState.mk none true ∅) (DashboardState.mk [] [] true)
      (CreateLeagueModalState.mk "Friday" true)
      (AuthFormState.mk "e" "p" "n" "" true)
  exact h15

/-- Claim C8 (witness for the amended theorem at a concrete detail). -/
theorem claim_C8_amended_witness :
    surfacesDetail (login_notOk_surface "Invalid credentials") "Invalid credentials" :=
  (claim_C8_amended "Invalid credentials").1

/-- Claim C10 (witness at a concrete provider value). -/
theorem claim_C10_witness :
    useAuth none = Except.error "useAuth must be used within an AuthProvider" :=
  (claim_C10_useAuth (authProviderValue (AuthState.mk none none none true))
    (AuthState.mk none none none true)).1
